import Mathlib

/-!
Shallow embedding of `src/image.rs` from the `inlyne` repository: the image
lifecycle module (async fetch/decode task, shared pixel buffer, layout sizing
math, GPU bind-group creation, and quad geometry).

Modelling conventions:
* `f32` values are modelled exactly, as rationals extended with the IEEE
  special values `+inf`, `-inf` and `nan` (type `F32`).  The arithmetic
  operations implement the IEEE special-value rules for the operations the
  source uses; rounding error of finite `f32` arithmetic is not modelled
  (all concrete inputs used below are exactly representable and all
  intermediate results are exact in `f32`).
* Rust's saturating float-to-integer cast `as u32` is `F32.toU32`:
  truncation toward zero, negative values and `nan` go to `0`, values above
  `2^32 - 1` (and `+inf`) go to `2^32 - 1`.
* `u32` values are `ℕ` (the casts `u32 -> f32` in the source are exact in
  this model).
* The mutex-guarded shared pixel buffer is modelled by an
  `Option RgbaImage` field together with a boolean `lockHeld` recording
  whether the background writer currently holds the mutex, which is what a
  `try_lock` probe observes; a blocking `lock()` always succeeds.
* The background fetch/decode thread spawned by `Image::from_url` is
  modelled as a pure function of an environment recording the outcome of
  each fallible external step; a `.unwrap()` panic is modelled as `none`.
-/

namespace Inlyne

/-- Decoded RGBA raster, named after `image::RgbaImage`; only its reported
pixel dimensions matter to this module (`image.dimensions()` in the source
returns `(width, height)`). -/
structure RgbaImage where
  width : ℕ
  height : ℕ
deriving DecidableEq

/-- Exact model of an `f32` value: a rational (finite values, no rounding
error modelled) or one of the IEEE special values. -/
inductive F32 where
  | fin : ℚ → F32
  | inf : F32
  | ninf : F32
  | nan : F32
deriving DecidableEq

/-- IEEE multiplication on the model: infinities keep sign rules and
`0 * ±inf = nan`; any `nan` operand is absorbing. -/
def F32.mul : F32 → F32 → F32
  | .fin a, .fin b => .fin (a * b)
  | .fin a, .inf => if 0 < a then .inf else if a < 0 then .ninf else .nan
  | .fin a, .ninf => if 0 < a then .ninf else if a < 0 then .inf else .nan
  | .inf, .fin b => if 0 < b then .inf else if b < 0 then .ninf else .nan
  | .ninf, .fin b => if 0 < b then .ninf else if b < 0 then .inf else .nan
  | .inf, .inf => .inf
  | .inf, .ninf => .ninf
  | .ninf, .inf => .ninf
  | .ninf, .ninf => .inf
  | _, _ => .nan

/-- IEEE division on the model: a nonzero finite value divided by zero is a
signed infinity (`0` is `+0` here, matching every zero the source produces),
`0/0 = nan`, finite over infinite is `0`, and `nan` is absorbing. -/
def F32.div : F32 → F32 → F32
  | .fin a, .fin b =>
      if b = 0 then (if 0 < a then .inf else if a < 0 then .ninf else .nan)
      else .fin (a / b)
  | .fin _, .inf => .fin 0
  | .fin _, .ninf => .fin 0
  | .inf, .fin b => if 0 ≤ b then .inf else .ninf
  | .ninf, .fin b => if 0 ≤ b then .ninf else .inf
  | _, _ => .nan

/-- IEEE subtraction on the model (only the cases the source can reach are
interesting; `nan` is absorbing, `inf - inf = nan`). -/
def F32.sub : F32 → F32 → F32
  | .fin a, .fin b => .fin (a - b)
  | .fin _, .inf => .ninf
  | .fin _, .ninf => .inf
  | .inf, .fin _ => .inf
  | .ninf, .fin _ => .ninf
  | .inf, .ninf => .inf
  | .ninf, .inf => .ninf
  | _, _ => .nan

/-- IEEE `>` comparison: any comparison involving `nan` is false. -/
def F32.gt : F32 → F32 → Bool
  | .fin a, .fin b => decide (b < a)
  | .fin _, .inf => false
  | .fin _, .ninf => true
  | .inf, .fin _ => true
  | .inf, .ninf => true
  | .ninf, _ => false
  | .inf, .inf => false
  | _, _ => false

/-- Rust's saturating `f32 as u32` cast: truncation toward zero; negative
values and `nan` saturate to `0`; `+inf` and values past `u32::MAX`
saturate to `2^32 - 1`. -/
def F32.toU32 : F32 → ℕ
  | .fin q => if q ≤ 0 then 0 else min (⌊q⌋).toNat (2 ^ 32 - 1)
  | .inf => 2 ^ 32 - 1
  | .ninf => 0
  | .nan => 0

/-- The three-way sizing directive `ImageSize` from the source. -/
inductive ImageSize where
  | PxWidth : ℕ → ImageSize
  | PxHeight : ℕ → ImageSize
  | FullSize : ℕ × ℕ → ImageSize
deriving DecidableEq

/-- The stored GPU bind group; only the texture extent it was created with
is observable in this model (the source bundles a texture view sized to
`buffer_dimensions()` with the shared sampler). -/
structure BindGroup where
  texWidth : ℕ
  texHeight : ℕ
deriving DecidableEq

/-- Observable GPU side effects of one `create_bind_group` call: how many
textures and bind groups the call created on the device. -/
structure GpuTrace where
  texturesCreated : ℕ
  bindGroupsCreated : ℕ
deriving DecidableEq

/-- The `Image` struct.  `image` is the contents of the mutex-guarded shared
pixel buffer and `lockHeld` records whether the background writer currently
holds its mutex (what `try_lock` probes observe).  `is_aligned` stores the
opaque `Align` tag as `Option Unit`.  The `callback` field (the listener
handle) lives with the background-task model below and is omitted here. -/
structure Image where
  image : Option RgbaImage
  lockHeld : Bool
  is_aligned : Option Unit
  size : Option ImageSize
  bind_group : Option BindGroup
deriving DecidableEq

/-- `Image::buffer_dimensions`: a non-blocking `try_lock` probe — `(0, 0)`
when the lock is held or the buffer is empty, otherwise the decoded image's
reported dimensions. -/
def Image.buffer_dimensions (self : Image) : ℕ × ℕ :=
  if self.lockHeld then (0, 0)
  else
    match self.image with
    | some image => (image.width, image.height)
    | none => (0, 0)

/-- `Image::dimensions_from_image_size`: derive target dimensions from a
`SizePolicy`, computing the missing axis from the native dimensions in
`f32` and casting back with `as u32`. -/
def Image.dimensions_from_image_size (self : Image) (size : ImageSize) : ℕ × ℕ :=
  let image_dimensions := self.buffer_dimensions
  match size with
  | .PxWidth px_width =>
      (px_width,
        F32.toU32 (F32.mul
          (F32.div (.fin (px_width : ℚ)) (.fin (image_dimensions.1 : ℚ)))
          (.fin (image_dimensions.2 : ℚ))))
  | .PxHeight px_height =>
      (F32.toU32 (F32.mul
          (F32.div (.fin (px_height : ℚ)) (.fin (image_dimensions.2 : ℚ)))
          (.fin (image_dimensions.1 : ℚ))),
        px_height)
  | .FullSize wh => wh

/-- `Image::dimensions`.  `hidpi_scale` and `screen_size` are the finite
`f32` arguments of the source function.  `margin` is the constant
`DEFAULT_MARGIN` imported from `src/renderer.rs`, which is not part of this
source tree; it is kept as an explicit parameter (see `DEFAULT_MARGIN`
below for the value the spec's example fixes).  The body mirrors the source
line by line: the buffer dimensions are scaled by `hidpi_scale` into
`buffer_size`, `max_width = screen_size.0 - 2 * DEFAULT_MARGIN`, and the
three branches (size policy set and clamped, set and unclamped, unset) are
reproduced including every `f32`/`u32` cast. -/
def Image.dimensions (self : Image) (hidpi_scale : ℚ) (screen_size : ℚ × ℚ)
    (margin : ℚ) : ℕ × ℕ :=
  let buffer_size0 := self.buffer_dimensions
  let buffer_size : F32 × F32 :=
    (F32.mul (.fin (buffer_size0.1 : ℚ)) (.fin hidpi_scale),
     F32.mul (.fin (buffer_size0.2 : ℚ)) (.fin hidpi_scale))
  let max_width : ℚ := screen_size.1 - 2 * margin
  match self.size with
  | some image_size =>
      let dimensions := self.dimensions_from_image_size image_size
      let target_dimensions :=
        (F32.toU32 (F32.mul (.fin (dimensions.1 : ℚ)) (.fin hidpi_scale)),
         F32.toU32 (F32.mul (.fin (dimensions.2 : ℚ)) (.fin hidpi_scale)))
      if target_dimensions.1 > F32.toU32 (.fin max_width) then
        (F32.toU32 (.fin max_width),
         F32.toU32 (F32.mul (F32.div (.fin max_width) buffer_size.1) buffer_size.2))
      else
        target_dimensions
  | none =>
      if F32.gt (F32.mul buffer_size.1 (.fin hidpi_scale)) (.fin max_width) then
        (F32.toU32 (.fin max_width),
         F32.toU32 (F32.mul (F32.div (.fin max_width) buffer_size.1) buffer_size.2))
      else
        (F32.toU32 buffer_size.1, F32.toU32 buffer_size.2)

/-- Modelled from the spec: `DEFAULT_MARGIN` is defined in
`src/renderer.rs`, which is outside this source tree.  The spec's
end-to-end example (screen width 800, max width `760 = 800 - 2 * margin`)
fixes it at `20`. -/
def DEFAULT_MARGIN : ℚ := 20

/-- `Image::create_bind_group`: probes `buffer_dimensions` (non-blocking),
then takes the blocking lock; if the buffer is empty nothing happens,
otherwise a texture sized to the probed dimensions is created, written, and
bundled with the sampler into a bind group stored in `self.bind_group`.
The returned `GpuTrace` counts the device objects the call created. -/
def Image.create_bind_group (self : Image) : Image × GpuTrace :=
  let dimensions := self.buffer_dimensions
  match self.image with
  | some _ =>
      ({ self with bind_group := some ⟨dimensions.1, dimensions.2⟩ }, ⟨1, 1⟩)
  | none => (self, ⟨0, 0⟩)

/-- Environment of one run of the background thread spawned by
`Image::from_url`: the outcome of every fallible external step.
`openOk` — does `File::open(url)` succeed; `metadataOk` — does
`fs::metadata(url)` succeed (its `len` only sizes a buffer and is
irrelevant); `readBytes` — `read_to_end` result when open succeeded;
`remoteBytes` — combined `reqwest::blocking::get(url).map(|r| r.bytes())`
double-`Ok` result; `decode` — `image::load_from_memory` as a function of
the fetched bytes; `callbackLock` — what `callback.try_lock()` observes
(`none` = `WouldBlock`, `some c` = acquired with registered listener `c`);
`sendOk` — does `send_event` succeed. -/
structure TaskEnv where
  openOk : Bool
  metadataOk : Bool
  readBytes : Option (List ℕ)
  remoteBytes : Option (List ℕ)
  decode : List ℕ → Option RgbaImage
  callbackLock : Option (Option Unit)
  sendOk : Bool

/-- Observable outcome of a completed (non-panicking) background task run:
the final contents of the shared pixel buffer and how many "content
changed" (`InlyneEvent::Reposition`) notifications were sent. -/
structure TaskOutcome where
  buffer : Option RgbaImage
  notifications : ℕ
deriving DecidableEq

/-- The background thread body from `Image::from_url`, step by step:
(1) try the local file path — on open success, `metadata().unwrap()` and
`read_to_end(..).unwrap()` panic on failure (modelled as `none`);
(2) otherwise try the remote fetch — if that also fails, `return` silently;
(3) decode the bytes — on success write the pixels into the shared buffer
under the lock; on failure leave it empty and fall through;
(4) probe the listener lock without blocking and, if a listener is
registered, `send_event(Reposition).unwrap()` — panicking if the send
fails, otherwise counting one notification. -/
def backgroundTask (env : TaskEnv) : Option TaskOutcome :=
  let fetched : Option (Option (List ℕ)) :=
    if env.openOk then
      if env.metadataOk then
        match env.readBytes with
        | some img_buf => some (some img_buf)
        | none => none
      else none
    else
      match env.remoteBytes with
      | some data => some (some data)
      | none => some none
  match fetched with
  | none => none
  | some none => some ⟨none, 0⟩
  | some (some image_data) =>
      let buffer : Option RgbaImage :=
        match env.decode image_data with
        | some image => some image
        | none => none
      match env.callbackLock with
      | some (some _) =>
          if env.sendOk then some ⟨buffer, 1⟩ else none
      | _ => some ⟨buffer, 0⟩

/-- The bytes the fetch phase hands to the decoder, when it completes
without panicking: the local file's contents if the open succeeded,
otherwise the remote response body. -/
def fetchedBytes (env : TaskEnv) : Option (List ℕ) :=
  if env.openOk then
    if env.metadataOk then env.readBytes else none
  else env.remoteBytes

/-- The free function `point`: maps a unit-quad corner `(x, y)` to
normalized device coordinates for a quad at `position` of extent `size` on
a `screen`-sized viewport.  All inputs are finite in every use, so the
model computes in `ℚ`. -/
def point (x y : ℚ) (position size screen : ℚ × ℚ) : ℚ × ℚ × ℚ :=
  let scale_x := size.1 / screen.1
  let scale_y := size.2 / screen.2
  let shift_x := position.1 / screen.1 * 2
  let shift_y := position.2 / screen.2 * 2
  (x * scale_x - (1 - scale_x) + shift_x, y * scale_y + (1 - scale_y) - shift_y, 0)

/-- The spec's `mapCorner` formula, written from the spec's own equations
(`nx = x*scaleX - (1 - scaleX) + shiftX`, `ny = y*scaleY + (1 - scaleY) -
shiftY` with `scale = size/screen` and `shift = 2*position/screen`), to be
compared with `point` above. -/
def mapCornerSpec (x y : ℚ) (position size screen : ℚ × ℚ) : ℚ × ℚ × ℚ :=
  (x * (size.1 / screen.1) - (1 - size.1 / screen.1) + 2 * (position.1 / screen.1),
   y * (size.2 / screen.2) + (1 - size.2 / screen.2) - 2 * (position.2 / screen.2),
   0)

/-- A vertex of the textured quad: 3-component position and 2-component
texture coordinate. -/
structure ImageVertex where
  pos : ℚ × ℚ × ℚ
  tex_coords : ℚ × ℚ
deriving DecidableEq

/-- The shared index buffer built once by `ImageRenderer::new`:
`const INDICES: &[u16] = &[0, 1, 2, 2, 3, 4]`. -/
def INDICES : List ℕ := [0, 1, 2, 2, 3, 4]

/-- `ImageRenderer::vertex_buf`: the four quad-corner vertices, with the
source's corner-to-texture-coordinate mapping. -/
def vertex_buf (pos size screen_size : ℚ × ℚ) : List ImageVertex :=
  [⟨point (-1) 1 pos size screen_size, (0, 0)⟩,
   ⟨point (-1) (-1) pos size screen_size, (0, 1)⟩,
   ⟨point 1 (-1) pos size screen_size, (1, 1)⟩,
   ⟨point 1 1 pos size screen_size, (1, 0)⟩]

/-! ### Helper lemmas about the `f32` model -/

theorem F32.mul_fin (a b : ℚ) : F32.mul (.fin a) (.fin b) = .fin (a * b) := rfl

theorem F32.gt_fin (a b : ℚ) : F32.gt (.fin a) (.fin b) = decide (b < a) := rfl

theorem F32.div_fin (a b : ℚ) (hb : b ≠ 0) :
    F32.div (.fin a) (.fin b) = .fin (a / b) := by
  simp [F32.div, hb]

theorem F32.toU32_fin (q : ℚ) :
    F32.toU32 (.fin q) = if q ≤ 0 then 0 else min (⌊q⌋).toNat (2 ^ 32 - 1) := rfl

theorem F32.toU32_fin_le (q : ℚ) (h : 0 ≤ q) : (F32.toU32 (.fin q) : ℚ) ≤ q := by
  rw [F32.toU32_fin]
  split
  · exact_mod_cast h
  · rename_i hq
    push_neg at hq
    have h1 : min (⌊q⌋).toNat (2 ^ 32 - 1) ≤ (⌊q⌋).toNat := Nat.min_le_left _ _
    have h2 : ((⌊q⌋).toNat : ℚ) ≤ q := by
      have h3 : ((⌊q⌋).toNat : ℤ) = ⌊q⌋ :=
        Int.toNat_of_nonneg (Int.floor_nonneg.mpr (le_of_lt hq))
      have h4 : ((⌊q⌋ : ℤ) : ℚ) ≤ q := Int.floor_le q
      calc ((⌊q⌋).toNat : ℚ) = (((⌊q⌋).toNat : ℤ) : ℚ) := by push_cast; ring
        _ = ((⌊q⌋ : ℤ) : ℚ) := by rw [h3]
        _ ≤ q := h4
    calc ((min (⌊q⌋).toNat (2 ^ 32 - 1) : ℕ) : ℚ) ≤ ((⌊q⌋).toNat : ℚ) := by
          exact_mod_cast h1
      _ ≤ q := h2

theorem F32.toU32_div_zero_mul_zero (q : ℚ) :
    F32.toU32 (F32.mul (F32.div (.fin q) (.fin 0)) (.fin 0)) = 0 := by
  rcases lt_trichotomy q 0 with h | h | h
  · simp [F32.div, F32.mul, F32.toU32, h, not_lt_of_lt h]
  · simp [F32.div, F32.mul, F32.toU32, h]
  · simp [F32.div, F32.mul, F32.toU32, h, not_lt_of_lt h, ne_of_gt h]

/-! ### Claim C1 -/

/-- C1: the shared 6-entry index buffer `[0, 1, 2, 2, 3, 4]` built by
`ImageRenderer::new` does NOT stay within the four vertices produced by
`ImageRenderer::vertex_buf`: its sixth entry is `4`, an index past the
four-vertex quad, so the second triangle references a vertex that does not
exist (the claim's bound `i < 4` fails).  This theorem evaluates the code
at the failing input. -/
theorem index_buffer_references_fifth_vertex :
    INDICES = [0, 1, 2, 2, 3, 4]
    ∧ (vertex_buf (0, 0) (2, 2) (2, 2)).length = 4
    ∧ ¬ (∀ i ∈ INDICES, i < (vertex_buf (0, 0) (2, 2) (2, 2)).length) := by
  refine ⟨rfl, rfl, fun hall => ?_⟩
  have h4 := hall 4 (by simp [INDICES])
  simp [vertex_buf] at h4

/-! ### Claim C7 -/

/-- C7: if the shared pixel buffer is empty when `Image::create_bind_group`
is called, the call is a silent no-op — no texture and no bind group are
created on the device, and the whole `Image` (in particular its stored
`bind_group` field) is left unchanged. -/
theorem create_bind_group_noop_when_empty (st : Image) (h : st.image = none) :
    st.create_bind_group = (st, ⟨0, 0⟩) := by
  simp [Image.create_bind_group, h]

/-- Witness for C7 at a concrete never-uploaded image: the call leaves
`bind_group = none` and creates nothing. -/
theorem create_bind_group_noop_witness :
    Image.create_bind_group ⟨none, false, none, none, none⟩
      = (⟨none, false, none, none, none⟩, ⟨0, 0⟩) :=
  create_bind_group_noop_when_empty ⟨none, false, none, none, none⟩ rfl

/-! ### Claim C8 -/

/-- C8: `Image::buffer_dimensions` is a non-blocking probe: it returns
`(0, 0)` whenever the writer holds the lock or the buffer is still empty,
and once the background task has completed with a successful decode and the
lock is free it returns exactly the decoder-reported native dimensions. -/
theorem buffer_dimensions_nonblocking :
    (∀ st : Image, st.lockHeld = true → st.buffer_dimensions = (0, 0))
    ∧ (∀ st : Image, st.image = none → st.buffer_dimensions = (0, 0))
    ∧ (∀ st : Image, ∀ img : RgbaImage, st.lockHeld = false → st.image = some img →
        st.buffer_dimensions = (img.width, img.height))
    ∧ (∀ env : TaskEnv, ∀ b img o, fetchedBytes env = some b → env.decode b = some img →
        backgroundTask env = some o →
        o.buffer = some img ∧
          Image.buffer_dimensions ⟨o.buffer, false, none, none, none⟩
            = (img.width, img.height)) := by
  refine ⟨?_, ?_, ?_, ?_⟩
  · intro st h; simp [Image.buffer_dimensions, h]
  · intro st h; simp [Image.buffer_dimensions, h]
  · intro st img h1 h2; simp [Image.buffer_dimensions, h1, h2]
  · intro env b img o hb hdec hrun
    obtain ⟨op, md, rb, remb, dec, cb, so⟩ := env
    cases op <;> cases md <;>
      rcases rb with _ | b₁ <;> rcases remb with _ | b₂ <;>
      rcases cb with _ | (_ | ⟨⟩) <;> cases so <;>
      simp_all [backgroundTask, fetchedBytes, Image.buffer_dimensions] <;>
      (subst hrun; simp)

/-- Witness for C8: a concrete held-lock probe, a concrete empty probe, a
concrete decoded probe, and a concrete completed task run. -/
theorem buffer_dimensions_nonblocking_witness :
    Image.buffer_dimensions ⟨some ⟨8, 9⟩, true, none, none, none⟩ = (0, 0)
    ∧ Image.buffer_dimensions ⟨none, false, none, none, none⟩ = (0, 0)
    ∧ Image.buffer_dimensions ⟨some ⟨640, 480⟩, false, none, none, none⟩ = (640, 480)
    ∧ Image.buffer_dimensions ⟨some ⟨640, 480⟩, false, none, none, none⟩ = (640, 480) :=
  ⟨buffer_dimensions_nonblocking.1 ⟨some ⟨8, 9⟩, true, none, none, none⟩ rfl,
   buffer_dimensions_nonblocking.2.1 ⟨none, false, none, none, none⟩ rfl,
   buffer_dimensions_nonblocking.2.2.1 ⟨some ⟨640, 480⟩, false, none, none, none⟩ ⟨640, 480⟩ rfl rfl,
   (buffer_dimensions_nonblocking.2.2.2
      ⟨false, true, none, some [7], fun _ => some ⟨640, 480⟩, some none, true⟩
      [7] ⟨640, 480⟩ ⟨some ⟨640, 480⟩, 0⟩ rfl rfl rfl).2⟩

/-! ### Claim C2 -/

/-- C2 counterexample: a run in which the remote fetch succeeds but the
decode fails, with a listener registered and its lock free, still sends one
"content changed" notification — the notification block in
`Image::from_url`'s task sits outside the decode-success branch, so the
claim's "zero notifications are sent on any failure path" is false on the
decode-failure path. -/
theorem decode_failure_still_notifies :
    backgroundTask ⟨false, true, none, some [0], fun _ => none, some (some ()), true⟩
      = some ⟨none, 1⟩ := rfl

/-- C2 (amended): in every non-panicking run of the background task, at
most one notification is sent, and exactly one is sent iff the bytes were
successfully fetched (locally or remotely) — regardless of whether the
decode succeeded — and the listener lock was acquirable with a listener
registered.  In particular zero notifications are sent on every fetch
failure, and exactly one on every successful decode with a registered,
lock-free listener. -/
theorem notification_sent_iff_fetched_and_listener (env : TaskEnv) (o : TaskOutcome)
    (hrun : backgroundTask env = some o) :
    o.notifications ≤ 1 ∧
      (o.notifications = 1 ↔
        (∃ b, fetchedBytes env = some b) ∧ env.callbackLock = some (some ())) := by
  obtain ⟨op, md, rb, remb, dec, cb, so⟩ := env
  cases op <;> cases md <;>
    rcases rb with _ | b₁ <;> rcases remb with _ | b₂ <;>
    rcases cb with _ | (_ | ⟨⟩) <;> cases so <;>
    simp_all [backgroundTask, fetchedBytes] <;>
    (subst hrun; simp)

/-- Witness for C2's amended theorem: a successful local fetch and decode
with a registered listener sends exactly one notification. -/
theorem notification_sent_witness :
    (TaskOutcome.mk (some ⟨640, 480⟩) 1).notifications ≤ 1 ∧
      ((TaskOutcome.mk (some ⟨640, 480⟩) 1).notifications = 1 ↔
        (∃ b, fetchedBytes
            ⟨true, true, some [7], none, fun _ => some ⟨640, 480⟩, some (some ()), true⟩
          = some b) ∧
        (TaskEnv.mk true true (some [7]) none (fun _ => some ⟨640, 480⟩)
            (some (some ())) true).callbackLock = some (some ())) :=
  notification_sent_iff_fetched_and_listener
    ⟨true, true, some [7], none, fun _ => some ⟨640, 480⟩, some (some ()), true⟩
    ⟨some ⟨640, 480⟩, 1⟩ rfl

/-! ### Claim C6 -/

/-- C6 counterexample: when `File::open` succeeds but `fs::metadata` fails,
the task hits `metadata(..).unwrap()` and panics — modelled as `none` — so
the claim's "for every failing fetch, metadata, read, or decode step, the
task terminates without panicking" is false at this input. -/
theorem metadata_failure_panics :
    backgroundTask ⟨true, false, some [], some [], fun _ => none, some none, true⟩
      = none := rfl

/-- C6 (amended): the silent-degradation policy holds on the open/remote
fetch-failure path and on the decode-failure path — the task completes
without panic, the shared pixel buffer stays empty and (for the
fetch-failure path) no notification is sent — but a `metadata` or `read`
failure after a successful open, or a `send_event` failure, panics the
background thread via `unwrap` instead of being swallowed. -/
theorem fetch_and_decode_failures_swallowed :
    (∀ env : TaskEnv, env.openOk = false → env.remoteBytes = none →
        backgroundTask env = some ⟨none, 0⟩)
    ∧ (∀ env : TaskEnv, ∀ b o, fetchedBytes env = some b → env.decode b = none →
        backgroundTask env = some o → o.buffer = none)
    ∧ (∀ env : TaskEnv, ∀ b, fetchedBytes env = some b → env.decode b = none →
        env.sendOk = true →
        ∃ o, backgroundTask env = some o ∧ o.buffer = none) := by
  refine ⟨?_, ?_, ?_⟩
  · intro env h1 h2
    obtain ⟨op, md, rb, remb, dec, cb, so⟩ := env
    simp_all [backgroundTask]
  · intro env b o hb hdec hrun
    obtain ⟨op, md, rb, remb, dec, cb, so⟩ := env
    cases op <;> cases md <;>
      rcases rb with _ | b₁ <;> rcases remb with _ | b₂ <;>
      rcases cb with _ | (_ | ⟨⟩) <;> cases so <;>
      simp_all [backgroundTask, fetchedBytes] <;>
      (subst hrun; simp)
  · intro env b hb hdec hso
    obtain ⟨op, md, rb, remb, dec, cb, so⟩ := env
    cases op <;> cases md <;>
      rcases rb with _ | b₁ <;> rcases remb with _ | b₂ <;>
      rcases cb with _ | (_ | ⟨⟩) <;> cases so <;>
      simp_all [backgroundTask, fetchedBytes]

/-- Witness for C6's amended theorem: a concrete run where both the local
open and the remote fetch fail ends silently with an empty buffer and zero
notifications. -/
theorem fetch_failure_swallowed_witness :
    backgroundTask ⟨false, true, none, none, fun _ => some ⟨1, 1⟩, some (some ()), true⟩
      = some ⟨none, 0⟩ :=
  fetch_and_decode_failures_swallowed.1
    ⟨false, true, none, none, fun _ => some ⟨1, 1⟩, some (some ()), true⟩ rfl rfl

/-! ### Claim C10 -/

/-- C10: the geometry function `point` computes exactly the spec's
`mapCorner` formula, and in particular maps the bottom-left unit corner of
a full-screen quad at the origin to `(-1, -1, 0)` for every nonzero screen
extent `S`. -/
theorem point_matches_spec_formula :
    (∀ x y : ℚ, ∀ position size screen : ℚ × ℚ,
        point x y position size screen = mapCornerSpec x y position size screen)
    ∧ (∀ S : ℚ, S ≠ 0 → point (-1) (-1) (0, 0) (S, S) (S, S) = (-1, -1, 0)) := by
  constructor
  · intro x y position size screen
    simp only [point, mapCornerSpec, Prod.mk.injEq]
    refine ⟨by ring, by ring, trivial⟩
  · intro S hS
    simp only [point, Prod.mk.injEq]
    rw [div_self hS]
    norm_num

/-- Witness for C10 at `S = 5`. -/
theorem point_full_screen_witness :
    point (-1) (-1) (0, 0) (5, 5) (5, 5) = (-1, -1, 0) :=
  point_matches_spec_formula.2 5 (by norm_num)

/-! ### Claim C3 -/

/-- C3 counterexample: with native size 100×50, `hidpiScale = 2`, screen
`(340, 600)` and margin 20, the claim's clamp test `100 × 2 = 200 >
340 − 40 = 300` is false, so the claim predicts the unclamped output
`(200, 100)`; the code instead applies `hidpiScale` a second time in its
clamp test (`200 × 2 = 400 > 300`) and returns the clamped `(300, 150)`. -/
theorem no_policy_clamp_fires_below_claimed_threshold :
    ((100 : ℚ) * 2 ≤ 340 - 2 * 20)
    ∧ Image.dimensions ⟨some ⟨100, 50⟩, false, none, none, none⟩ 2 (340, 600) 20 = (300, 150)
    ∧ Image.dimensions ⟨some ⟨100, 50⟩, false, none, none, none⟩ 2 (340, 600) 20 ≠ (200, 100) := by
  have heval : Image.dimensions ⟨some ⟨100, 50⟩, false, none, none, none⟩ 2 (340, 600) 20
      = (300, 150) := by
    norm_num [Image.dimensions, Image.buffer_dimensions, F32.mul, F32.div, F32.gt, F32.toU32]
    all_goals try simp
    all_goals try norm_num
    all_goals try simp
  refine ⟨by norm_num, heval, ?_⟩
  rw [heval]
  simp

/-- C3 (amended): with no size policy set, `Image::dimensions` clamps
precisely when `nativeWidth × hidpiScale²` (the already-scaled width scaled
once more by the clamp test) exceeds `maxWidth = screenWidth − 2 × margin`;
when it clamps it returns `maxWidth` and `maxWidth × h / w` truncated to
`u32`, and otherwise it returns `(nativeWidth × hidpiScale,
nativeHeight × hidpiScale)` truncated to `u32`.  With `hidpiScale = 1` this
coincides with the claim. -/
theorem no_policy_dimensions_hidpi_squared (w h : ℕ) (hidpi : ℚ) (screen : ℚ × ℚ)
    (margin : ℚ) (hw : 0 < w) (hs : 0 < hidpi) :
    ((w : ℚ) * hidpi * hidpi > screen.1 - 2 * margin →
      Image.dimensions ⟨some ⟨w, h⟩, false, none, none, none⟩ hidpi screen margin
        = (F32.toU32 (.fin (screen.1 - 2 * margin)),
           F32.toU32 (.fin ((screen.1 - 2 * margin) * (h : ℚ) / (w : ℚ)))))
    ∧ (¬ ((w : ℚ) * hidpi * hidpi > screen.1 - 2 * margin) →
      Image.dimensions ⟨some ⟨w, h⟩, false, none, none, none⟩ hidpi screen margin
        = (F32.toU32 (.fin ((w : ℚ) * hidpi)), F32.toU32 (.fin ((h : ℚ) * hidpi)))) := by
  have hw0 : ((w : ℚ)) ≠ 0 := Nat.cast_ne_zero.mpr hw.ne'
  have hwh : (w : ℚ) * hidpi ≠ 0 := mul_ne_zero hw0 hs.ne'
  have hkey : (screen.1 - 2 * margin) / ((w : ℚ) * hidpi) * ((h : ℚ) * hidpi)
      = (screen.1 - 2 * margin) * (h : ℚ) / (w : ℚ) := by
    field_simp
    ring
  constructor <;> intro hc <;>
    simp [Image.dimensions, Image.buffer_dimensions, F32.mul_fin, F32.gt_fin,
      F32.div_fin _ _ hwh, hkey, hc]

/-- Witness for C3's amended theorem at the spec's end-to-end example:
100×50 native, no policy, hidpi 1, screen `(800, 600)`, margin 20 →
`(100, 50)` unscaled. -/
theorem no_policy_dimensions_witness :
    Image.dimensions ⟨some ⟨100, 50⟩, false, none, none, none⟩ 1 (800, 600) 20
      = (100, 50) := by
  have h := (no_policy_dimensions_hidpi_squared 100 50 1 (800, 600) 20
    (by norm_num) (by norm_num)).2 (by norm_num)
  rw [h]
  norm_num [F32.toU32_fin]
  all_goals try simp

/-! ### Claim C4 -/

/-- C4 counterexample: with native size 3×2, policy `PxWidth(1)`, hidpi 1
and no clamping, the code returns height `⌊1 × 2 / 3⌋ = 0` while the claim's
`round(1 × 2 / 3) = 1`; and with screen width 10 and margin 20 (so
`maxWidth = −30 < 0`) the clamped output width `0` exceeds `maxWidth`. -/
theorem pxwidth_height_truncates_not_rounds :
    Image.dimensions ⟨some ⟨3, 2⟩, false, none, some (.PxWidth 1), none⟩ 1 (1000, 1000) 20
      = (1, 0)
    ∧ round ((1 : ℚ) * 2 / 3) = 1
    ∧ Image.dimensions ⟨some ⟨1, 1⟩, false, none, some (.PxWidth 5), none⟩ 1 (10, 600) 20
      = (0, 0)
    ∧ ((10 : ℚ) - 2 * 20 < 0) := by
  refine ⟨?_, ?_, ?_, by norm_num⟩
  · norm_num [Image.dimensions, Image.dimensions_from_image_size, Image.buffer_dimensions,
      F32.mul, F32.div, F32.gt, F32.toU32]
    all_goals try simp
    all_goals try norm_num
    all_goals try simp
  · rw [round_eq]
    norm_num
  · norm_num [Image.dimensions, Image.dimensions_from_image_size, Image.buffer_dimensions,
      F32.mul, F32.div, F32.gt, F32.toU32]
    all_goals try simp
    all_goals try norm_num
    all_goals try simp

/-- C4 (amended): for native `(w, h)` with `w > 0` and policy
`PxWidth(target)`, when the clamp does not fire the output height is
`trunc(trunc(target × h / w) × hidpiScale)` — truncation toward zero at
both casts, not rounding — and whenever `maxWidth ≥ 0` the output width
never exceeds `maxWidth`. -/
theorem pxwidth_height_truncated_width_bounded (w h t : ℕ) (hidpi : ℚ)
    (screen : ℚ × ℚ) (margin : ℚ) (hw : 0 < w) :
    (¬ (F32.toU32 (.fin ((t : ℚ) * hidpi)) > F32.toU32 (.fin (screen.1 - 2 * margin))) →
      Image.dimensions ⟨some ⟨w, h⟩, false, none, some (.PxWidth t), none⟩ hidpi screen margin
        = (F32.toU32 (.fin ((t : ℚ) * hidpi)),
           F32.toU32 (.fin ((F32.toU32 (.fin ((t : ℚ) / (w : ℚ) * (h : ℚ))) : ℚ) * hidpi))))
    ∧ (0 ≤ screen.1 - 2 * margin →
        ((Image.dimensions ⟨some ⟨w, h⟩, false, none, some (.PxWidth t), none⟩
            hidpi screen margin).1 : ℚ) ≤ screen.1 - 2 * margin) := by
  have hw0 : ((w : ℚ)) ≠ 0 := Nat.cast_ne_zero.mpr hw.ne'
  have hres : Image.dimensions ⟨some ⟨w, h⟩, false, none, some (.PxWidth t), none⟩
      hidpi screen margin
      = if F32.toU32 (.fin ((t : ℚ) * hidpi)) > F32.toU32 (.fin (screen.1 - 2 * margin)) then
          (F32.toU32 (.fin (screen.1 - 2 * margin)),
           F32.toU32 (F32.mul
             (F32.div (.fin (screen.1 - 2 * margin)) (.fin ((w : ℚ) * hidpi)))
             (.fin ((h : ℚ) * hidpi))))
        else
          (F32.toU32 (.fin ((t : ℚ) * hidpi)),
           F32.toU32 (.fin ((F32.toU32 (.fin ((t : ℚ) / (w : ℚ) * (h : ℚ))) : ℚ) * hidpi))) := by
    simp [Image.dimensions, Image.dimensions_from_image_size, Image.buffer_dimensions,
      F32.mul_fin, F32.div_fin _ _ hw0]
  constructor
  · intro hc
    rw [hres, if_neg hc]
  · intro hm
    rw [hres]
    split
    · exact F32.toU32_fin_le _ hm
    · rename_i hc
      push_neg at hc
      calc ((F32.toU32 (.fin ((t : ℚ) * hidpi)) : ℕ) : ℚ)
          ≤ ((F32.toU32 (.fin (screen.1 - 2 * margin)) : ℕ) : ℚ) := by exact_mod_cast hc
        _ ≤ screen.1 - 2 * margin := F32.toU32_fin_le _ hm

/-- Witness for C4's amended theorem: native 1×1, `PxWidth(2)`, hidpi 1,
screen `(1000, 1000)`, margin 20 → unclamped output `(2, 2)` with width
`2 ≤ 960`. -/
theorem pxwidth_height_truncated_witness :
    Image.dimensions ⟨some ⟨1, 1⟩, false, none, some (.PxWidth 2), none⟩ 1 (1000, 1000) 20
      = (2, 2)
    ∧ ((Image.dimensions ⟨some ⟨1, 1⟩, false, none, some (.PxWidth 2), none⟩
        1 (1000, 1000) 20).1 : ℚ) ≤ 1000 - 2 * 20 := by
  have h := pxwidth_height_truncated_width_bounded 1 1 2 1 (1000, 1000) 20 (by norm_num)
  have h1 := h.1 (by
    norm_num [F32.toU32_fin]
    all_goals try simp
    all_goals try norm_num
    all_goals try simp
    all_goals try simp)
  have h2 := h.2 (by norm_num)
  refine ⟨?_, h2⟩
  rw [h1]
  norm_num [F32.toU32_fin]
  all_goals try simp
  all_goals try norm_num
  all_goals try simp

/-! ### Claim C5 -/

/-- C5 counterexample: policy `PxWidth(67)`, native 1×1, hidpi `3/2`,
screen width `561/4` and margin 20 give `maxWidth = 100.25` and scaled
target width `100.5 > 100.25`, so the claim requires clamping with output
width exactly `100.25`; the code compares the truncated `u32` values
`100 > 100`, does not clamp, and returns width `100 ≠ 100.25`. -/
theorem clamp_compares_truncated_widths :
    ((67 : ℚ) * (3 / 2) > 561 / 4 - 2 * 20)
    ∧ Image.dimensions ⟨some ⟨1, 1⟩, false, none, some (.PxWidth 67), none⟩ (3 / 2)
        (561 / 4, 600) 20 = (100, 100)
    ∧ ((100 : ℚ) ≠ 561 / 4 - 2 * 20) := by
  refine ⟨by norm_num, ?_, by norm_num⟩
  norm_num [Image.dimensions, Image.dimensions_from_image_size, Image.buffer_dimensions,
    F32.mul, F32.div, F32.gt, F32.toU32]
  all_goals try simp
  all_goals try norm_num
  all_goals try simp

/-- C5 (amended): for every size policy — including the non-aspect-
preserving `FullSize` — whenever the code's clamp test fires (the
`u32`-truncated scaled target width exceeds the `u32`-truncated
`maxWidth`), the output is `(trunc(maxWidth), trunc(maxWidth × h / w))`:
the clamped width is `maxWidth` truncated to `u32` (equal to `S − 2m`
exactly when that is a `u32`-representable integer), and the clamped
height is re-derived from the native aspect ratio `h / w`, not from the
target's. -/
theorem clamp_output_uses_native_aspect (w h : ℕ) (sz : ImageSize) (hidpi : ℚ)
    (screen : ℚ × ℚ) (margin : ℚ) (hw : 0 < w) (hs : 0 < hidpi)
    (hcond : F32.toU32 (.fin
        (((Image.dimensions_from_image_size ⟨some ⟨w, h⟩, false, none, some sz, none⟩ sz).1 : ℚ)
          * hidpi))
      > F32.toU32 (.fin (screen.1 - 2 * margin))) :
    Image.dimensions ⟨some ⟨w, h⟩, false, none, some sz, none⟩ hidpi screen margin
      = (F32.toU32 (.fin (screen.1 - 2 * margin)),
         F32.toU32 (.fin ((screen.1 - 2 * margin) * (h : ℚ) / (w : ℚ)))) := by
  have hw0 : ((w : ℚ)) ≠ 0 := Nat.cast_ne_zero.mpr hw.ne'
  have hwh : (w : ℚ) * hidpi ≠ 0 := mul_ne_zero hw0 hs.ne'
  have hkey : (screen.1 - 2 * margin) / ((w : ℚ) * hidpi) * ((h : ℚ) * hidpi)
      = (screen.1 - 2 * margin) * (h : ℚ) / (w : ℚ) := by
    field_simp
    ring
  simp [Image.dimensions, Image.buffer_dimensions, F32.mul_fin, F32.gt_fin,
    F32.div_fin _ _ hwh, hkey, hcond]

/-- Witness for C5's amended theorem: native 1×1 with the non-aspect-
preserving `FullSize((500, 300))` policy, hidpi 1, screen `(140, 600)`,
margin 20 → clamp fires (`500 > 100`) and the output is `(100, 100)`,
restoring the native 1:1 ratio rather than the target's 5:3. -/
theorem clamp_output_native_aspect_witness :
    Image.dimensions ⟨some ⟨1, 1⟩, false, none, some (.FullSize (500, 300)), none⟩ 1
      (140, 600) 20 = (100, 100) := by
  have h := clamp_output_uses_native_aspect 1 1 (.FullSize (500, 300)) 1 (140, 600) 20
    (by norm_num) (by norm_num)
    (by
      norm_num [Image.dimensions_from_image_size, Image.buffer_dimensions,
        F32.mul, F32.div, F32.toU32]
      all_goals try simp
      all_goals try norm_num
      all_goals try simp
      all_goals try simp)
  rw [h]
  norm_num [F32.toU32_fin]
  all_goals try simp
  all_goals try norm_num
  all_goals try simp

/-! ### Claim C9 -/

/-- C9 counterexample: with an empty pixel buffer (native width 0) and the
`FullSize((10, 10))` policy, `Image::dimensions` returns `(10, 10)` —
neither `(0, 0)` nor an output with a safely-clamped zero dimension — so
the claim's "returns (0,0) or a safely-clamped zero dimension" fails for
the explicit-pair policy. -/
theorem fullsize_empty_buffer_keeps_pair :
    Image.dimensions ⟨none, false, none, some (.FullSize (10, 10)), none⟩ 1 (1000, 1000) 20
      = (10, 10)
    ∧ (Image.dimensions ⟨none, false, none, some (.FullSize (10, 10)), none⟩ 1
        (1000, 1000) 20).1 ≠ 0
    ∧ (Image.dimensions ⟨none, false, none, some (.FullSize (10, 10)), none⟩ 1
        (1000, 1000) 20).2 ≠ 0 := by
  have heval : Image.dimensions ⟨none, false, none, some (.FullSize (10, 10)), none⟩ 1
      (1000, 1000) 20 = (10, 10) := by
    norm_num [Image.dimensions, Image.dimensions_from_image_size, Image.buffer_dimensions,
      F32.mul, F32.div, F32.gt, F32.toU32]
    all_goals try simp
    all_goals try norm_num
    all_goals try simp
  refine ⟨heval, ?_, ?_⟩ <;> rw [heval] <;> simp

/-- C9 (amended): when the probed native dimensions are `(0, 0)` (buffer
empty or lock held), no `NaN`/`Inf` from the unguarded divisions ever
reaches the output — every division-by-zero-derived component is absorbed
to `0` by the saturating cast: with no policy the result is exactly
`(0, 0)`; with `PxWidth` the derived height is `0`; with `PxHeight` the
derived width is `0`; with `FullSize` the explicit pair is used unclamped,
or clamped with height `0`. -/
theorem empty_buffer_dimensions_guarded (img : Option RgbaImage) (held : Bool)
    (al : Option Unit) (bg : Option BindGroup) (hidpi : ℚ) (screen : ℚ × ℚ) (margin : ℚ)
    (hempty : held = true ∨ img = none) :
    Image.dimensions ⟨img, held, al, none, bg⟩ hidpi screen margin = (0, 0)
    ∧ (∀ t, (Image.dimensions ⟨img, held, al, some (.PxWidth t), bg⟩ hidpi screen margin).2
        = 0)
    ∧ (∀ t, (Image.dimensions ⟨img, held, al, some (.PxHeight t), bg⟩ hidpi screen margin).1
        = 0)
    ∧ (∀ a b, Image.dimensions ⟨img, held, al, some (.FullSize (a, b)), bg⟩ hidpi screen margin
          = (F32.toU32 (.fin ((a : ℚ) * hidpi)), F32.toU32 (.fin ((b : ℚ) * hidpi)))
        ∨ Image.dimensions ⟨img, held, al, some (.FullSize (a, b)), bg⟩ hidpi screen margin
          = (F32.toU32 (.fin (screen.1 - 2 * margin)), 0)) := by
  have hbd : ∀ sz : Option ImageSize,
      Image.buffer_dimensions ⟨img, held, al, sz, bg⟩ = (0, 0) := by
    intro sz
    rcases hempty with h | h <;> simp [Image.buffer_dimensions, h]
  refine ⟨?_, ?_, ?_, ?_⟩
  · by_cases hmw : screen.1 - 2 * margin < 0
    · simp [Image.dimensions, hbd, F32.mul_fin, F32.gt_fin, hmw,
        F32.toU32_div_zero_mul_zero, F32.toU32_fin, le_of_lt hmw]
    · simp [Image.dimensions, hbd, F32.mul_fin, F32.gt_fin, hmw, F32.toU32_fin]
  · intro t
    simp only [Image.dimensions, Image.dimensions_from_image_size, hbd]
    simp only [Nat.cast_zero, F32.mul_fin, zero_mul, mul_zero,
      F32.toU32_div_zero_mul_zero]
    split <;> simp [F32.toU32_div_zero_mul_zero, F32.toU32_fin]
  · intro t
    simp only [Image.dimensions, Image.dimensions_from_image_size, hbd]
    simp only [Nat.cast_zero, F32.mul_fin, zero_mul, mul_zero,
      F32.toU32_div_zero_mul_zero]
    split
    · rename_i hcc
      exfalso
      simp [F32.toU32_fin] at hcc
    · simp [F32.toU32_fin]
  · intro a b
    simp only [Image.dimensions, Image.dimensions_from_image_size, hbd]
    simp only [Nat.cast_zero, F32.mul_fin, zero_mul, mul_zero,
      F32.toU32_div_zero_mul_zero]
    split
    · right
      simp [F32.toU32_div_zero_mul_zero]
    · left
      rfl

/-- Witness for C9's amended theorem: an empty, unlocked buffer with no
policy yields `(0, 0)`, and with `PxWidth(100)` yields derived height 0. -/
theorem empty_buffer_dimensions_witness :
    Image.dimensions ⟨none, false, none, none, none⟩ 1 (1000, 1000) 20 = (0, 0)
    ∧ (Image.dimensions ⟨none, false, none, some (.PxWidth 100), none⟩ 1 (1000, 1000) 20).2
      = 0 :=
  ⟨(empty_buffer_dimensions_guarded none false none none 1 (1000, 1000) 20 (Or.inr rfl)).1,
   (empty_buffer_dimensions_guarded none false none none 1 (1000, 1000) 20
    (Or.inr rfl)).2.1 100⟩

end Inlyne
